import Mathlib

/-
Verification development for the crypto-analyzer scoring-and-forecast service
(`analysis/app.py`).  The pipeline of the `/score-token` handler is embedded
shallowly: Python dict/list/str/number runtime values become the inductive
`PyVal`, floating point arithmetic is modelled exactly over `ℚ`, exceptions
become `Except PyExc`, and the external fetches (backend, CoinGecko, the
Celery task pool) become explicit parameters of the embedded functions.
-/

namespace CryptoAnalyzer

/-- Python runtime values as far as the scoring pipeline inspects them:
`None`, booleans, ints, floats (modelled exactly over `ℚ`), strings, lists
and string-keyed dicts (modelled as association lists in insertion order;
Python dicts have unique keys, which first-match lookup respects). -/
inductive PyVal where
  | pynone
  | pybool (b : Bool)
  | pyint (n : Int)
  | pyfloat (q : ℚ)
  | pystr (s : String)
  | pylist (l : List PyVal)
  | pydict (d : List (String × PyVal))

/-- Python exception classes distinguished by the scorers' `except` clauses. -/
inductive PyExc where
  | typeError
  | valueError
  | keyError
  | indexError
  | attributeError
  deriving DecidableEq

/-- Python truthiness (`if x:`) for the embedded values. -/
def truthy : PyVal → Bool
  | .pynone => false
  | .pybool b => b
  | .pyint n => n != 0
  | .pyfloat q => q != 0
  | .pystr s => s != ""
  | .pylist l => !l.isEmpty
  | .pydict d => !d.isEmpty

/-- First-match lookup in a string-keyed association list (Python dict
subscription and membership; dict keys are unique so first match is the
unique match). -/
def alistGet? (k : String) : List (String × PyVal) → Option PyVal
  | [] => none
  | kv :: rest => if kv.1 = k then some kv.2 else alistGet? k rest

/-- Value of a list of decimal digit characters read in base 10. -/
def natOfDigits (cs : List Char) : ℕ :=
  cs.foldl (fun acc c => acc * 10 + (c.toNat - 48)) 0

/-- Modelled from Python `float(str)`, restricted to optionally signed plain
decimal literals (`123`, `-4.5`, `.5`, `1.`); exponents, `inf`/`nan` and
surrounding whitespace are not modelled (no claim exercises them).  Returns
`none` where Python raises `ValueError`. -/
def parseDecimal? (s : String) : Option ℚ :=
  let cs := s.data
  let sign : ℚ × List Char :=
    match cs with
    | '-' :: rest => (-1, rest)
    | '+' :: rest => (1, rest)
    | _ => (1, cs)
  let intPart := sign.2.takeWhile (fun c => c ≠ '.')
  let rest := sign.2.dropWhile (fun c => c ≠ '.')
  match rest with
  | [] =>
    if intPart ≠ [] ∧ intPart.all Char.isDigit then
      some (sign.1 * natOfDigits intPart)
    else none
  | _ :: frac =>
    if (intPart ≠ [] ∨ frac ≠ []) ∧ intPart.all Char.isDigit ∧ frac.all Char.isDigit then
      some (sign.1 * (natOfDigits intPart + (natOfDigits frac : ℚ) / (10 : ℚ) ^ frac.length))
    else none

/-- Python `float(x)`: numbers convert, strings parse or raise `ValueError`,
`None`/lists/dicts raise `TypeError`. -/
def pyFloat : PyVal → Except PyExc ℚ
  | .pybool b => .ok (if b then 1 else 0)
  | .pyint n => .ok n
  | .pyfloat q => .ok q
  | .pystr s =>
    match parseDecimal? s with
    | some q => .ok q
    | none => .error .valueError
  | _ => .error .typeError

/-- Python `x[-1]`: last element of a list (IndexError when empty), last
character of a string (IndexError when empty), `KeyError` on a string-keyed
dict, `TypeError` otherwise. -/
def pyLast : PyVal → Except PyExc PyVal
  | .pylist l =>
    match l.getLast? with
    | some x => .ok x
    | none => .error .indexError
  | .pystr s =>
    match s.data.getLast? with
    | some c => .ok (.pystr ⟨[c]⟩)
    | none => .error .indexError
  | .pydict _ => .error .keyError
  | _ => .error .typeError

/-- Python `x[k]` for a string key `k`: dict lookup (KeyError when missing),
`TypeError` on any non-dict. -/
def pySubscript (x : PyVal) (k : String) : Except PyExc PyVal :=
  match x with
  | .pydict d =>
    match alistGet? k d with
    | some v => .ok v
    | none => .error .keyError
  | _ => .error .typeError

/-- Python `x.get(k, dflt)`: defaulting dict lookup; `AttributeError` on any
non-dict (no `get` method). -/
def pyDictGet (x : PyVal) (k : String) (dflt : PyVal) : Except PyExc PyVal :=
  match x with
  | .pydict d => .ok ((alistGet? k d).getD dflt)
  | _ => .error .attributeError

/-- Body of the `try` block of `calculate_macro_score` (app.py lines
195-202): absent / non-dict / `cpi`-less data scores 0; a truthy `cpi`
sequence is read at `[-1]['value']`, converted with `float`, and thresholded
(`-2` if above 5, `2` if below 2, else `0`); a falsy `cpi` entry leaves
`latest_cpi = 0`. -/
def calculate_macro_score_body (md : PyVal) : Except PyExc ℚ :=
  if !truthy md then .ok 0
  else
    match md with
    | .pydict d =>
      match alistGet? "cpi" d with
      | none => .ok 0
      | some cpi =>
        let latest : Except PyExc ℚ :=
          if truthy cpi then
            match pyLast cpi with
            | .error e => .error e
            | .ok item =>
              match pySubscript item "value" with
              | .error e => .error e
              | .ok v => pyFloat v
          else .ok 0
        match latest with
        | .error e => .error e
        | .ok q => .ok (if q > 5 then -2 else if q < 2 then 2 else 0)
    | _ => .ok 0

/-- `calculate_macro_score` (app.py lines 195-205): the body with its
`except (IndexError, ValueError, KeyError): return 0` handler; any other
exception (e.g. `TypeError`) propagates to the caller. -/
def calculate_macro_score (md : PyVal) : Except PyExc ℚ :=
  match calculate_macro_score_body md with
  | .ok q => .ok q
  | .error .indexError => .ok 0
  | .error .valueError => .ok 0
  | .error .keyError => .ok 0
  | .error e => .error e

/-- Body of the `try` block of `calculate_sentiment_score` (app.py lines
207-214): absent / non-dict data scores 0; otherwise
`sentiment_data.get('fearGreed', {}).get('value', 50)` is converted with
`float` and mapped by `(f - 50) / 25`. -/
def calculate_sentiment_score_body (sd : PyVal) : Except PyExc ℚ :=
  if !truthy sd then .ok 0
  else
    match sd with
    | .pydict d =>
      match pyDictGet ((alistGet? "fearGreed" d).getD (.pydict [])) "value" (.pyint 50) with
      | .error e => .error e
      | .ok v =>
        match pyFloat v with
        | .error e => .error e
        | .ok q => .ok ((q - 50) / 25)
    | _ => .ok 0

/-- `calculate_sentiment_score` (app.py lines 207-217): the body with its
`except (ValueError, KeyError): return 0` handler; any other exception
(e.g. `AttributeError`, `TypeError`) propagates to the caller. -/
def calculate_sentiment_score (sd : PyVal) : Except PyExc ℚ :=
  match calculate_sentiment_score_body sd with
  | .ok q => .ok q
  | .error .valueError => .ok 0
  | .error .keyError => .ok 0
  | .error e => .error e

/-- Positive regulatory keywords (app.py line 330). -/
def POSITIVE_KEYWORDS : List String :=
  ["approval", "clarity", "favorable", "adoption", "etf", "crypto", "blockchain",
   "stablecoin", "digital securities"]

/-- Negative regulatory keywords (app.py line 331). -/
def NEGATIVE_KEYWORDS : List String :=
  ["enforcement", "lawsuit", "clampdown", "violation", "probe"]

/-- Fuel-indexed scan behind `pyCount`; at each position either a
non-overlapping match is consumed (skipping the pattern's length) or one
character is dropped.  The fuel is the haystack length, which bounds the
number of steps for a non-empty pattern. -/
def countSubAux : ℕ → List Char → List Char → ℕ
  | 0, _, _ => 0
  | fuel + 1, p, s =>
    match s with
    | [] => 0
    | c :: rest =>
      if p.isPrefixOf (c :: rest) then
        1 + countSubAux fuel p (List.drop p.length (c :: rest))
      else countSubAux fuel p rest

/-- Python `hay.count(pat)`: non-overlapping left-to-right substring count
(`''.count('')` style edge case: an empty pattern counts `len + 1`). -/
def pyCount (hay pat : String) : ℕ :=
  if pat.data.isEmpty then hay.data.length + 1
  else countSubAux hay.data.length pat.data hay.data

/-- Python `s.lower()` restricted to ASCII case mapping (the corpus text in
scope is ASCII). -/
def pyLower (s : String) : String := ⟨s.data.map Char.toLower⟩

/-- Total substring hits of a keyword list in a text:
`sum(text.count(kw) for kw in kws)`. -/
def keywordHits (kws : List String) (text : String) : ℕ :=
  (kws.map (fun kw => pyCount text kw)).sum

/-- One SEC filing as the regulatory scorer reads it; missing `description`
or `form` keys surface as `""` through `.get(..., '')`. -/
structure Filing where
  description : String
  form : String

/-- One news article as the regulatory scorer reads it; missing keys surface
as `""`. -/
structure Article where
  title : String
  description : String

/-- Per-filing score (app.py lines 336-345): a falsy (empty) description is
skipped (`none`); otherwise keyword hits are counted on the lowercased
description, the form weight is `1.5` for `8-k`/`10-q`/`10-k` (lowercased)
and `1.0` otherwise, and the score is
`form_weight * (pos - neg) / (pos + neg + 1)`. -/
def filingScore? (f : Filing) : Option ℚ :=
  if f.description = "" then none
  else
    let text := pyLower f.description
    let pos : ℚ := keywordHits POSITIVE_KEYWORDS text
    let neg : ℚ := keywordHits NEGATIVE_KEYWORDS text
    let form_weight : ℚ := if pyLower f.form ∈ ["8-k", "10-q", "10-k"] then 1.5 else 1.0
    some (form_weight * (pos - neg) / (pos + neg + 1))

/-- Article text: `article.get('title', '') + ' ' + article.get('description', '')`
(app.py line 353). -/
def articleText (a : Article) : String := a.title ++ " " ++ a.description

/-- Per-article score (app.py lines 352-359): the concatenated text is
scored exactly like a filing but without form weighting; a falsy text would
be skipped, though the embedded space keeps it non-empty. -/
def articleScore? (a : Article) : Option ℚ :=
  if articleText a = "" then none
  else
    let text := pyLower (articleText a)
    let pos : ℚ := keywordHits POSITIVE_KEYWORDS text
    let neg : ℚ := keywordHits NEGATIVE_KEYWORDS text
    some ((pos - neg) / (pos + neg + 1))

/-- Python truthiness of an optional container: `None` and the empty
container are falsy. -/
def optListTruthy {α : Type} : Option (List α) → Bool
  | none => false
  | some l => !l.isEmpty

/-- Filings visited by the scorer's first loop: all filings of all filers,
in order, provided `regulatory_data` is truthy (app.py lines 333-336). -/
def regFilings (rd : Option (List (String × List Filing))) : List Filing :=
  if optListTruthy rd then ((rd.getD []).map Prod.snd).flatten else []

/-- Articles visited by the scorer's second loop, provided `news_data` is
truthy (app.py lines 350-352). -/
def newsArticles (nd : Option (List Article)) : List Article :=
  if optListTruthy nd then nd.getD [] else []

/-- Accumulated `total_score` over both loops. -/
def regScoredTotal (rd : Option (List (String × List Filing)))
    (nd : Option (List Article)) : ℚ :=
  ((regFilings rd).filterMap filingScore?).sum +
    ((newsArticles nd).filterMap articleScore?).sum

/-- Accumulated `count` of scored documents over both loops. -/
def regScoredCount (rd : Option (List (String × List Filing)))
    (nd : Option (List Article)) : ℕ :=
  ((regFilings rd).filterMap filingScore?).length +
    ((newsArticles nd).filterMap articleScore?).length

/-- `calculate_regulatory_score` (app.py lines 318-369) with the two backend
fetches passed in as parameters (`None` for a failed fetch): both halves
falsy returns 0 immediately; otherwise the averaged document score scaled by
2, or 0 when no document was scored. -/
def calculate_regulatory_score (rd : Option (List (String × List Filing)))
    (nd : Option (List Article)) : ℚ :=
  if !optListTruthy rd && !optListTruthy nd then 0
  else if regScoredCount rd nd > 0 then
    (regScoredTotal rd nd / (regScoredCount rd nd : ℚ)) * 2
  else 0

/-- The built-in default weight map (app.py lines 45-60). -/
def DEFAULT_WEIGHTS : List (String × ℚ) :=
  [("macro", 0.35), ("crypto_specific", 0.25), ("sentiment", 0.20),
   ("on_chain_tech", 0.10), ("correlations_geopolitics", 0.10), ("ai", 0.15),
   ("regulatory", 0.15), ("esg_whales", 0.10), ("depin_gaming_privacy", 0.05),
   ("quantum", 0.05), ("cbdc", 0.10), ("restaking_defi", 0.10),
   ("creator_social", 0.05), ("cross_chain", 0.05)]

/-- Sum of the values of a weight map (`sum(weights.values())`). -/
def totalWeight (w : List (String × ℚ)) : ℚ := (w.map Prod.snd).sum

/-- Weight validation and normalization stage of `score_token` (app.py lines
74-83): a zero total is rejected with an HTTP 400 response, otherwise every
value is divided by the total, keys untouched. -/
def weightsStage (w : List (String × ℚ)) :
    Except (ℕ × String) (List (String × ℚ)) :=
  if totalWeight w = 0 then .error (400, "Invalid weights: sum must be non-zero")
  else .ok (w.map (fun kv => (kv.1, kv.2 / totalWeight w)))

/-- Python `d.get(k, 0)` on a numeric dict, as used during aggregation. -/
def dictGet (d : List (String × ℚ)) (k : String) : ℚ :=
  match d with
  | [] => 0
  | kv :: rest => if kv.1 = k then kv.2 else dictGet rest k

/-- Aggregation (app.py line 132):
`sum(scores.get(f, 0) * normalized_weights.get(f, 0) for f in scores)` —
the iteration runs over the keys of `scores`. -/
def aggregate (scores nw : List (String × ℚ)) : ℚ :=
  ((scores.map Prod.fst).map (fun f => dictGet scores f * dictGet nw f)).sum

/-- `risk_score` of the response (app.py line 169):
`min(max(aggregated_score * 2.5, 0), 10)`. -/
def risk_score (agg : ℚ) : ℚ := min (max (agg * 2.5) 0) 10

/-- `recommendation` of the response (app.py line 170):
`'buy' if aggregated_score > 0.8 else 'monitor' if aggregated_score > 0 else 'avoid'`. -/
def recommendation (agg : ℚ) : String :=
  if agg > 0.8 then "buy" else if agg > 0 then "monitor" else "avoid"

/-- Values produced by the eleven placeholder scorers (app.py lines
219-316).  Each returns `np.random.uniform(-2, 2)` under a catch-all
handler, so it always returns some rational; the unseeded random draw is
modelled by passing the drawn values in. -/
structure StubScores where
  crypto_specific : ℚ
  on_chain_tech : ℚ
  correlations_geopolitics : ℚ
  ai : ℚ
  esg_whales : ℚ
  depin_gaming_privacy : ℚ
  quantum : ℚ
  cbdc : ℚ
  restaking_defi : ℚ
  creator_social : ℚ
  cross_chain : ℚ

/-- The `scores` dict literal of `score_token` (app.py lines 109-124): the
fourteen scorers run in source order and the first uncaught exception
aborts the whole dict construction.  Only the macro and sentiment scorers
can raise (their `except` clauses are selective); the placeholder scorers
and the regulatory scorer trap every exception. -/
def computeScores (md sd : PyVal) (rd : Option (List (String × List Filing)))
    (nd : Option (List Article)) (st : StubScores) :
    Except PyExc (List (String × ℚ)) :=
  match calculate_macro_score md with
  | .error e => .error e
  | .ok m =>
    match calculate_sentiment_score sd with
    | .error e => .error e
    | .ok s =>
      .ok [("macro", m), ("sentiment", s),
           ("crypto_specific", st.crypto_specific),
           ("on_chain_tech", st.on_chain_tech),
           ("correlations_geopolitics", st.correlations_geopolitics),
           ("ai", st.ai),
           ("regulatory", calculate_regulatory_score rd nd),
           ("esg_whales", st.esg_whales),
           ("depin_gaming_privacy", st.depin_gaming_privacy),
           ("quantum", st.quantum),
           ("cbdc", st.cbdc),
           ("restaking_defi", st.restaking_defi),
           ("creator_social", st.creator_social),
           ("cross_chain", st.cross_chain)]

/-- Outcome of the Celery forecast task as observed by
`task.get(timeout=10)`: a timeout, a task-internal failure, or a returned
value. -/
inductive TaskOutcome where
  | timeout
  | failure
  | value (q : ℚ)

/-- Prediction resolution in `score_token` (app.py lines 139-164): an empty
price series, a timeout, any exception, or a non-positive returned value all
resolve to the fallback constant `1000.0`; a positive returned value passes
through. -/
def resolve_price_target (seriesEmpty : Bool) (o : TaskOutcome) : ℚ :=
  if seriesEmpty then 1000.0
  else
    match o with
    | .timeout => 1000.0
    | .failure => 1000.0
    | .value q => if q ≤ 0 then 1000.0 else q

/-- The JSON response of a successful `/score-token` request (app.py lines
168-173). -/
structure ScoreResponse where
  risk_sc : ℚ
  recomm : String
  price_target : ℚ
  factor_scores : List (String × ℚ)

/-- The `/score-token` pipeline after request validation (app.py lines
74-178), with the external inputs passed in: weight processing, the scores
dict, aggregation, prediction resolution and response assembly.  An
uncaught scorer exception is answered by the handler at line 128 with an
HTTP 500 response and the pipeline stops there. -/
def score_token_core (w : List (String × ℚ)) (md sd : PyVal)
    (rd : Option (List (String × List Filing))) (nd : Option (List Article))
    (st : StubScores) (seriesEmpty : Bool) (o : TaskOutcome) :
    Except (ℕ × String) ScoreResponse :=
  match weightsStage w with
  | .error e => .error e
  | .ok nw =>
    match computeScores md sd rd nd st with
    | .error _ => .error (500, "Error calculating scores")
    | .ok scores =>
      let agg := aggregate scores nw
      .ok ⟨risk_score agg, recommendation agg,
           resolve_price_target seriesEmpty o, scores⟩

/-- Most recent `n` entries of a list (`df['price'].tail(n)`). -/
def lastN (n : ℕ) (l : List ℚ) : List ℚ := l.drop (l.length - n)

/-- `np.linspace a b n` with endpoint: `n` evenly spaced points from `a` to
`b`; a single point is just `a`. -/
def linspace (a b : ℚ) (n : ℕ) : List ℚ :=
  if n = 0 then []
  else if n = 1 then [a]
  else (List.range n).map (fun i : ℕ => a + (b - a) * (i : ℚ) / ((n : ℚ) - 1))

/-- `np.average xs weights`: weighted sum divided by the weight total. -/
def npAverage (xs ws : List ℚ) : ℚ :=
  (List.zipWith (fun x w => x * w) xs ws).sum / ws.sum

/-- Errors of the `predict_price` Celery task (app.py lines 400-433): the
empty-series and non-positive-base `ValueError`s it raises itself, and a
scorer exception escaping the factor computation; every one of them is
re-raised, so to the caller the task just fails. -/
inductive PredErr where
  | emptyHistory
  | invalidPrediction
  | scorerExc (e : PyExc)
  deriving DecidableEq

/-- `predict_price` (app.py lines 400-433): refuse an empty series; form the
weighted moving average of the last 30 prices with `linspace(0.5, 1.5, n)`
weights normalized to sum 1; refuse a non-positive base; multiply by
`1 + macro_score / 20` and `1 + sentiment_score / 10` (sentiment called with
an empty token dict). -/
def predict_price (hist : List (ℚ × ℚ)) (md sd : PyVal) : Except PredErr ℚ :=
  if hist.isEmpty then .error .emptyHistory
  else
    let prices := hist.map Prod.snd
    let recent := lastN 30 prices
    let w := linspace 0.5 1.5 recent.length
    let base := npAverage recent (w.map (fun x => x / w.sum))
    if base ≤ 0 then .error .invalidPrediction
    else
      match calculate_macro_score md with
      | .error e => .error (.scorerExc e)
      | .ok m =>
        match calculate_sentiment_score sd with
        | .error e => .error (.scorerExc e)
        | .ok s => .ok (base * (1 + m / 20) * (1 + s / 10))

/-- Follows the claim's words: the weighted average of the most recent
`min(30, length)` prices under linearly increasing weights from 0.5 (oldest)
to 1.5 (newest) normalized to sum to 1. -/
def claimBase (prices : List ℚ) : ℚ :=
  let recent := lastN 30 prices
  let w := linspace 0.5 1.5 recent.length
  (List.zipWith (fun p x => p * x) recent (w.map (fun x => x / w.sum))).sum

/-- Follows the claim's words: the normalized weighted average multiplied by
`1 + macro_score / 20` and `1 + sentiment_score / 10`. -/
def claimForecast (prices : List ℚ) (m s : ℚ) : ℚ :=
  claimBase prices * (1 + m / 20) * (1 + s / 10)

end CryptoAnalyzer

deriving instance DecidableEq for Except

namespace CryptoAnalyzer

/-- Helper: division by a constant distributes over a list sum. -/
theorem sum_map_div (l : List ℚ) (c : ℚ) :
    (l.map (fun x => x / c)).sum = l.sum / c := by
  induction l with
  | nil => simp
  | cons a t ih => simp [ih, add_div]

/-- C2: the claim says aggregated = 0.8 yields "monitor", 0.8000001 yields
"buy", 0 yields "monitor" and -0.1 yields "avoid".  It is false at
aggregated = 0: the source's `'monitor' if aggregated_score > 0` is a strict
comparison, so 0 falls through to "avoid". -/
theorem claim2_counterexample :
    recommendation 0 = "avoid" ∧ recommendation 0 ≠ "monitor" := by
  constructor
  · norm_num [recommendation]
  · norm_num [recommendation]
    decide

/-- C2 amended: aggregated = 0.8 yields "monitor", 0.8000001 yields "buy",
0 yields "avoid" (not "monitor"), and -0.1 yields "avoid". -/
theorem claim2_amended :
    recommendation 0.8 = "monitor" ∧ recommendation 0.8000001 = "buy" ∧
    recommendation 0 = "avoid" ∧ recommendation (-0.1) = "avoid" := by
  refine ⟨?_, ?_, ?_, ?_⟩ <;> norm_num [recommendation]

/-- C3: the claim says the single filing "ETF approval and clarity" /
"10-K" has filing score 1.5 * (2-0)/(2+0+1) = 1.0 and final regulatory
score 2.0.  It is false: the description contains three positive keyword
hits ("etf", "approval", "clarity"), not two, so the filing score is
1.5 * 3/4 = 1.125 and the returned score is 2.25 ≠ 2. -/
theorem claim3_counterexample :
    calculate_regulatory_score
        (some [("A", [⟨"ETF approval and clarity", "10-K"⟩])]) none = 9/4 ∧
    (9/4 : ℚ) ≠ 2 := by
  have h1 : keywordHits POSITIVE_KEYWORDS (pyLower "ETF approval and clarity") = 3 := by
    decide
  have h2 : keywordHits NEGATIVE_KEYWORDS (pyLower "ETF approval and clarity") = 0 := by
    decide
  have h3 : pyLower "10-K" = "10-k" := by decide
  refine ⟨?_, by norm_num⟩
  simp [calculate_regulatory_score, regScoredCount, regScoredTotal, regFilings,
    newsArticles, optListTruthy, filingScore?, h1, h2, h3]
  norm_num

/-- C3 amended: for the corpus of exactly one filing with description
"ETF approval and clarity" and form "10-K" and no other documents, the
description has 3 positive and 0 negative hits, the filing score is
1.5 * (3-0)/(3+0+1) = 1.125, and the returned regulatory score is
1.125 * 2 = 2.25. -/
theorem claim3_amended :
    keywordHits POSITIVE_KEYWORDS (pyLower "ETF approval and clarity") = 3 ∧
    keywordHits NEGATIVE_KEYWORDS (pyLower "ETF approval and clarity") = 0 ∧
    filingScore? ⟨"ETF approval and clarity", "10-K"⟩ = some (9/8) ∧
    calculate_regulatory_score
        (some [("A", [⟨"ETF approval and clarity", "10-K"⟩])]) none = 9/4 := by
  have h1 : keywordHits POSITIVE_KEYWORDS (pyLower "ETF approval and clarity") = 3 := by
    decide
  have h2 : keywordHits NEGATIVE_KEYWORDS (pyLower "ETF approval and clarity") = 0 := by
    decide
  have h3 : pyLower "10-K" = "10-k" := by decide
  refine ⟨h1, h2, ?_, ?_⟩
  · simp [filingScore?, h1, h2, h3]
    norm_num
  · simp [calculate_regulatory_score, regScoredCount, regScoredTotal, regFilings,
      newsArticles, optListTruthy, filingScore?, h1, h2, h3]
    norm_num

/-- C8: the returned risk_score equals clamp(aggregated * 2.5, 0, 10), so it
always lies in [0, 10]; aggregated = 10 yields 10 (not 25) and
aggregated = -5 yields 0. -/
theorem claim8_risk_score :
    (∀ a : ℚ, risk_score a = min (max (a * 2.5) 0) 10 ∧
      0 ≤ risk_score a ∧ risk_score a ≤ 10) ∧
    risk_score 10 = 10 ∧ risk_score (-5) = 0 := by
  refine ⟨fun a => ⟨rfl, ?_, min_le_right _ _⟩,
    by norm_num [risk_score], by norm_num [risk_score]⟩
  exact le_min (le_max_right _ _) (by norm_num)

/-- Helper: the `except (IndexError, ValueError, KeyError)` handler of the
macro scorer maps any caught failure of its body to the neutral score 0. -/
theorem macro_catch_ok (md : PyVal) (e : PyExc)
    (hbody : calculate_macro_score_body md = .error e)
    (hc : e = .indexError ∨ e = .valueError ∨ e = .keyError) :
    calculate_macro_score md = .ok 0 := by
  unfold calculate_macro_score
  rw [hbody]
  rcases hc with h | h | h <;> subst h <;> rfl

/-- C7: the claim says the macro scorer returns -2 when the latest CPI value
is above 5, +2 below 2, 0 otherwise, and 0 for every absent or malformed
snapshot.  It is false on two malformed snapshots: a present but empty
`cpi` sequence has no latest value yet scores +2 (the source leaves
`latest_cpi = 0`, and 0 < 2), and a `cpi` entry whose `value` is `None`
raises an uncaught `TypeError` from `float(None)` instead of returning 0. -/
theorem claim7_counterexample :
    calculate_macro_score (.pydict [("cpi", .pylist [])]) = .ok 2 ∧
    (Except.ok (2 : ℚ) : Except PyExc ℚ) ≠ .ok 0 ∧
    calculate_macro_score (.pydict [("cpi", .pylist [.pydict [("value", .pynone)]])])
      = .error .typeError := by
  refine ⟨by decide, by decide, by decide⟩

/-- C7 amended: when the last `cpi` entry carries a float value `q` the
macro scorer returns -2 for `q > 5`, +2 for `q < 2` and 0 otherwise; an
absent snapshot, a non-dict snapshot, and a dict without a `cpi` key score
0, as does any body failure of a caught class (IndexError, ValueError,
KeyError); but a present-and-empty `cpi` sequence scores +2, and uncaught
exception classes propagate instead of returning 0. -/
theorem claim7_amended :
    (∀ (q : ℚ) (rest : List PyVal),
      calculate_macro_score
          (.pydict [("cpi", .pylist (rest ++ [.pydict [("value", .pyfloat q)]]))])
        = .ok (if q > 5 then -2 else if q < 2 then 2 else 0)) ∧
    calculate_macro_score .pynone = .ok 0 ∧
    (∀ n : Int, calculate_macro_score (.pyint n) = .ok 0) ∧
    (∀ s : String, calculate_macro_score (.pystr s) = .ok 0) ∧
    (∀ d : List (String × PyVal), alistGet? "cpi" d = none →
      calculate_macro_score (.pydict d) = .ok 0) ∧
    calculate_macro_score (.pydict [("cpi", .pylist [])]) = .ok 2 ∧
    (∀ (md : PyVal) (e : PyExc), calculate_macro_score_body md = .error e →
      e = .indexError ∨ e = .valueError ∨ e = .keyError →
      calculate_macro_score md = .ok 0) := by
  refine ⟨?_, by decide, ?_, ?_, ?_, by decide, macro_catch_ok⟩
  · intro q rest
    have hne : (rest ++ [PyVal.pydict [("value", PyVal.pyfloat q)]]).isEmpty = false := by
      cases rest <;> rfl
    have hlast : (rest ++ [PyVal.pydict [("value", PyVal.pyfloat q)]]).getLast?
        = some (PyVal.pydict [("value", PyVal.pyfloat q)]) :=
      List.getLast?_concat _
    simp [calculate_macro_score, calculate_macro_score_body, truthy, alistGet?, pyLast,
      pySubscript, pyFloat, hne, hlast]
  · intro n
    have hb : calculate_macro_score_body (.pyint n) = .ok 0 := by
      unfold calculate_macro_score_body
      split <;> rfl
    unfold calculate_macro_score
    rw [hb]
  · intro s
    have hb : calculate_macro_score_body (.pystr s) = .ok 0 := by
      unfold calculate_macro_score_body
      split <;> rfl
    unfold calculate_macro_score
    rw [hb]
  · intro d hd
    have hb : calculate_macro_score_body (.pydict d) = .ok 0 := by
      simp only [calculate_macro_score_body, hd]
      split <;> rfl
    unfold calculate_macro_score
    rw [hb]

/-- C7 witness: the amended theorem applied at a CPI value of 6 (score -2),
at a dict without a `cpi` key, and at a body failing with a caught
`KeyError` (a dict-valued `cpi`, whose `[-1]` lookup raises `KeyError`). -/
theorem claim7_witness :
    calculate_macro_score
        (.pydict [("cpi", .pylist [.pydict [("value", .pyfloat 6)]])]) = .ok (-2) ∧
    calculate_macro_score (.pydict [("x", .pynone)]) = .ok 0 ∧
    calculate_macro_score (.pydict [("cpi", .pydict [("x", .pynone)])]) = .ok 0 := by
  refine ⟨?_, ?_, ?_⟩
  · have h := claim7_amended.1 6 []
    rw [if_pos (by norm_num : (6 : ℚ) > 5)] at h
    simpa using h
  · exact claim7_amended.2.2.2.2.1 _ rfl
  · exact claim7_amended.2.2.2.2.2.2 _ .keyError (by decide) (Or.inr (Or.inr rfl))

/-- Helper: the weights stage only ever fails with the 400 zero-sum
response. -/
theorem weightsStage_error_eq (w : List (String × ℚ)) (e : ℕ × String)
    (h : weightsStage w = .error e) :
    e = (400, "Invalid weights: sum must be non-zero") := by
  unfold weightsStage at h
  split at h
  · exact (Except.error.inj h).symm
  · cases h

/-- C4: the price target is never non-positive: an empty price series, a
task timeout, a task failure, and a non-positive task value all resolve to
the fallback constant 1000.0, a positive value passes through, and a
forecast failure is never surfaced as an error response (the pipeline's
only error responses come from the weights and scores stages). -/
theorem claim4_price_target :
    (∀ (se : Bool) (o : TaskOutcome), 0 < resolve_price_target se o) ∧
    (∀ o, resolve_price_target true o = 1000) ∧
    (∀ se, resolve_price_target se .timeout = 1000 ∧
      resolve_price_target se .failure = 1000) ∧
    (∀ q : ℚ, q ≤ 0 → resolve_price_target false (.value q) = 1000) ∧
    (∀ (w : List (String × ℚ)) (md sd : PyVal) rd nd st (se : Bool)
        (o : TaskOutcome) (e : ℕ × String),
      score_token_core w md sd rd nd st se o = .error e →
      e = (400, "Invalid weights: sum must be non-zero") ∨
      e = (500, "Error calculating scores")) := by
  refine ⟨?_, ?_, ?_, ?_, ?_⟩
  · intro se o
    cases se with
    | true => norm_num [resolve_price_target]
    | false =>
      cases o with
      | timeout => norm_num [resolve_price_target]
      | failure => norm_num [resolve_price_target]
      | value q =>
        by_cases h : q ≤ 0
        · simp only [resolve_price_target, Bool.false_eq_true, if_false, if_pos h]
          norm_num
        · simp only [resolve_price_target, Bool.false_eq_true, if_false, if_neg h]
          exact not_le.mp h
  · intro o
    norm_num [resolve_price_target]
  · intro se
    cases se <;> constructor <;> norm_num [resolve_price_target]
  · intro q h
    simp only [resolve_price_target, Bool.false_eq_true, if_false, if_pos h]
    norm_num
  · intro w md sd rd nd st se o e h
    unfold score_token_core at h
    split at h
    · next e2 hw =>
      cases h
      exact Or.inl (weightsStage_error_eq w _ hw)
    · next nw hw =>
      split at h
      · cases h
        exact Or.inr rfl
      · cases h

/-- C5: for every weight map with positive total, normalization succeeds
with exactly `{k: v/total}` over the input keys, and the normalized values
sum to exactly 1; a zero total is rejected with the 400 validation
response instead of a result. -/
theorem claim5_normalize :
    (∀ w : List (String × ℚ), 0 < totalWeight w →
      weightsStage w = .ok (w.map (fun kv => (kv.1, kv.2 / totalWeight w))) ∧
      (w.map (fun kv => (kv.1, kv.2 / totalWeight w))).map Prod.fst = w.map Prod.fst ∧
      ((w.map (fun kv => (kv.1, kv.2 / totalWeight w))).map Prod.snd).sum = 1) ∧
    (∀ w : List (String × ℚ), totalWeight w = 0 →
      weightsStage w = .error (400, "Invalid weights: sum must be non-zero")) := by
  constructor
  · intro w h
    refine ⟨?_, ?_, ?_⟩
    · unfold weightsStage
      rw [if_neg (ne_of_gt h)]
    · simp [List.map_map, Function.comp]
    · have hrw : (w.map (fun kv => (kv.1, kv.2 / totalWeight w))).map Prod.snd
          = (w.map Prod.snd).map (fun x => x / totalWeight w) := by
        simp [List.map_map, Function.comp]
      rw [hrw, sum_map_div]
      exact div_self (ne_of_gt h)
  · intro w h
    unfold weightsStage
    rw [if_pos h]

/-- C5 witness: the normalization theorem applied to the concrete map
`{a: 2, b: 2}` (total 4 > 0) and to the zero map `{a: 0}`. -/
theorem claim5_witness :
    weightsStage [("a", 2), ("b", 2)]
      = .ok [("a", 2 / totalWeight [("a", 2), ("b", 2)]),
             ("b", 2 / totalWeight [("a", 2), ("b", 2)])] ∧
    weightsStage [("a", 0)] = .error (400, "Invalid weights: sum must be non-zero") := by
  constructor
  · exact (claim5_normalize.1 [("a", 2), ("b", 2)] (by norm_num [totalWeight])).1
  · exact claim5_normalize.2 [("a", 0)] (by norm_num [totalWeight])

/-- Helper: the empty weight map has zero total and is rejected. -/
theorem weightsStage_nil :
    weightsStage [] = .error (400, "Invalid weights: sum must be non-zero") := rfl

/-- C4 witness: the price-target theorem applied at a non-positive task
value (-5) and at a concrete pipeline run whose scores stage fails (the
uncaught `TypeError` snapshot), discharging the hypotheses there. -/
theorem claim4_witness :
    resolve_price_target false (.value (-5)) = 1000 ∧
    0 < resolve_price_target true .timeout ∧
    (((400, "Invalid weights: sum must be non-zero") : ℕ × String)
        = (400, "Invalid weights: sum must be non-zero") ∨
      ((400, "Invalid weights: sum must be non-zero") : ℕ × String)
        = (500, "Error calculating scores")) := by
  refine ⟨claim4_price_target.2.2.2.1 (-5) (by norm_num),
    claim4_price_target.1 true .timeout,
    claim4_price_target.2.2.2.2 [] .pynone .pynone none none
      ⟨0, 0, 0, 0, 0, 0, 0, 0, 0, 0, 0⟩ true .timeout _ ?_⟩
  unfold score_token_core
  rw [weightsStage_nil]

/-- Helper: pointwise addition distributes over a mapped list sum. -/
theorem sum_map_add_pair {α : Type} (l : List α) (f g : α → ℚ) :
    (l.map (fun x => f x + g x)).sum = (l.map f).sum + (l.map g).sum := by
  induction l with
  | nil => simp
  | cons a t ih =>
    simp only [List.map_cons, List.sum_cons, ih]
    ring

/-- Helper: looking a key up in a list of pairs built from a key list and a
valuation returns the valuation of any member key. -/
theorem dictGet_map_pair (ks : List String) (h : String → ℚ) (k : String)
    (hk : k ∈ ks) : dictGet (ks.map fun x => (x, h x)) k = h k := by
  induction ks with
  | nil => cases hk
  | cons a t ih =>
    simp only [List.map_cons, dictGet]
    by_cases ha : a = k
    · rw [if_pos ha, ha]
    · rw [if_neg ha]
      rcases List.mem_cons.mp hk with he | ht
      · exact absurd he.symm ha
      · exact ih ht

/-- Helper: aggregation over a scores dict built from a key list and a
valuation is the plain weighted sum of the valuation over the keys. -/
theorem aggregate_map_pair (ks : List String) (h : String → ℚ)
    (nw : List (String × ℚ)) :
    aggregate (ks.map fun k => (k, h k)) nw
      = (ks.map (fun k => h k * dictGet nw k)).sum := by
  unfold aggregate
  have h1 : (ks.map fun k => (k, h k)).map Prod.fst = ks := by
    simp [List.map_map, Function.comp_def]
  rw [h1]
  exact congrArg List.sum
    (List.map_congr_left (fun x hx => by rw [dictGet_map_pair ks h x hx]))

/-- C9: aggregation returns 0 on an empty scores map, is linear in the
scores for every fixed weight map, sums over exactly the keys present in
the scores map, a score key with no weight contributes 0, and a weight key
with no score is unused. -/
theorem claim9_aggregate :
    (∀ nw : List (String × ℚ), aggregate [] nw = 0) ∧
    (∀ (ks : List String) (f g : String → ℚ) (a b : ℚ) (nw : List (String × ℚ)),
      aggregate (ks.map fun k => (k, a * f k + b * g k)) nw
        = a * aggregate (ks.map fun k => (k, f k)) nw
          + b * aggregate (ks.map fun k => (k, g k)) nw) ∧
    (∀ (k : String) (v : ℚ) (s nw : List (String × ℚ)),
      k ∉ s.map Prod.fst → dictGet nw k = 0 →
      aggregate ((k, v) :: s) nw = aggregate s nw) ∧
    (∀ (k : String) (v : ℚ) (s nw : List (String × ℚ)),
      k ∉ s.map Prod.fst →
      aggregate s ((k, v) :: nw) = aggregate s nw) := by
  refine ⟨fun nw => rfl, ?_, ?_, ?_⟩
  · intro ks f g a b nw
    rw [aggregate_map_pair, aggregate_map_pair, aggregate_map_pair]
    have hcong : ks.map (fun k => (a * f k + b * g k) * dictGet nw k)
        = ks.map (fun k => a * (f k * dictGet nw k) + b * (g k * dictGet nw k)) :=
      List.map_congr_left (fun x _ => by ring)
    rw [hcong, sum_map_add_pair, List.sum_map_mul_left, List.sum_map_mul_left]
  · intro k v s nw hk hw
    unfold aggregate
    simp only [List.map_cons, List.sum_cons]
    have hhead : dictGet ((k, v) :: s) k = v := by simp [dictGet]
    rw [hhead, hw, mul_zero, zero_add]
    refine congrArg List.sum (List.map_congr_left (fun x hx => ?_))
    have hxk : k ≠ x := fun he => hk (he ▸ hx)
    simp only [dictGet, if_neg hxk]
  · intro k v s nw hk
    unfold aggregate
    refine congrArg List.sum (List.map_congr_left (fun x hx => ?_))
    have hxk : k ≠ x := fun he => hk (he ▸ hx)
    simp only [dictGet, if_neg hxk]

/-- C9 witness: the aggregation theorem applied at concrete inputs: empty
scores, a linear combination over the key list ["m", "s"], a score key "x"
with no weight, and a weight key "y" with no score. -/
theorem claim9_witness :
    aggregate [] [("macro", 1)] = 0 ∧
    aggregate [("m", 2 * 3 + 5 * 7), ("s", 2 * 1 + 5 * 2)] [("m", 1), ("s", 4)]
      = 2 * aggregate [("m", 3), ("s", 1)] [("m", 1), ("s", 4)]
        + 5 * aggregate [("m", 7), ("s", 2)] [("m", 1), ("s", 4)] ∧
    aggregate [("x", 9), ("m", 3)] [("m", 1)] = aggregate [("m", 3)] [("m", 1)] ∧
    aggregate [("m", 3)] [("y", 8), ("m", 1)] = aggregate [("m", 3)] [("m", 1)] := by
  refine ⟨claim9_aggregate.1 [("macro", 1)], ?_, ?_, ?_⟩
  · have h := claim9_aggregate.2.1 ["m", "s"]
      (fun k => if k = "m" then 3 else 1) (fun k => if k = "m" then 7 else 2)
      2 5 [("m", 1), ("s", 4)]
    simpa using h
  · exact claim9_aggregate.2.2.1 "x" 9 [("m", 3)] [("m", 1)] (by decide) rfl
  · exact claim9_aggregate.2.2.2 "y" 8 [("m", 3)] [("y", 8), ("m", 1)] (by decide)

/-- Helper: every weight produced by `linspace 0.5 1.5 n` is positive. -/
theorem linspace_pos (n : ℕ) : ∀ x ∈ linspace 0.5 1.5 n, 0 < x := by
  intro x hx
  unfold linspace at hx
  split at hx
  · cases hx
  · split at hx
    · rw [List.mem_singleton] at hx
      rw [hx]
      norm_num
    · next h0 h1 =>
      rcases List.mem_map.mp hx with ⟨j, _, hfx⟩
      have hn : 2 ≤ n := by omega
      have hd : (0 : ℚ) < (n : ℚ) - 1 := by
        have h2 : (2 : ℚ) ≤ (n : ℚ) := by exact_mod_cast hn
        linarith
      have hj0 : (0 : ℚ) ≤ (j : ℚ) := Nat.cast_nonneg j
      have hnum : (0 : ℚ) ≤ (1.5 - 0.5) * (j : ℚ) / ((n : ℚ) - 1) :=
        div_nonneg (by nlinarith) (le_of_lt hd)
      rw [← hfx]
      nlinarith

/-- Helper: the length of `linspace a b n` is `n`. -/
theorem linspace_length (a b : ℚ) (n : ℕ) : (linspace a b n).length = n := by
  unfold linspace
  split
  · simp [*]
  · split
    · simp [*]
    · rw [List.length_map, List.length_range]

/-- Helper: the linspace weight total is positive whenever the window is
non-empty. -/
theorem linspace_sum_pos (n : ℕ) (hn : 0 < n) : 0 < (linspace 0.5 1.5 n).sum := by
  refine List.sum_pos _ (linspace_pos n) (fun he => ?_)
  have hl := linspace_length 0.5 1.5 n
  rw [he] at hl
  simp at hl
  omega

/-- Helper: the last-30 window of a non-empty price list is non-empty. -/
theorem lastN_ne_nil (prices : List ℚ) (h : prices ≠ []) : lastN 30 prices ≠ [] := by
  unfold lastN
  intro he
  have hlen := congrArg List.length he
  rw [List.length_drop] at hlen
  simp only [List.length_nil] at hlen
  have hp : prices.length ≠ 0 := fun h0 => h (List.length_eq_zero.mp h0)
  omega

/-- C6: the claim says that for every non-empty price series the forecast
equals the normalized 0.5-to-1.5 weighted average of the last 30 prices
times the macro and sentiment factors.  It is false at the series [(0, 0)]:
the weighted average is 0, so `predict_price` raises its
`Invalid prediction value` error instead of returning the formula's value
(the caller then substitutes the fallback constant). -/
theorem claim6_counterexample :
    predict_price [(0, 0)] .pynone .pynone = .error .invalidPrediction ∧
    predict_price [(0, 0)] .pynone .pynone ≠ .ok (claimForecast [0] 0 0) := by
  have h : predict_price [(0, 0)] .pynone .pynone = .error .invalidPrediction := by
    simp [predict_price, lastN, linspace, npAverage]
  refine ⟨h, ?_⟩
  rw [h]
  intro hc
  cases hc

/-- C6 amended: for every non-empty price series whose normalized weighted
average (linearly increasing weights 0.5 to 1.5 over the most recent
min(30, length) prices) is positive, and whenever the macro and sentiment
scorers return values `m` and `s`, the forecast equals that weighted
average multiplied by `1 + m/20` and `1 + s/10`; a non-positive weighted
average instead raises `InvalidPrediction`. -/
theorem claim6_amended (hist : List (ℚ × ℚ)) (md sd : PyVal) (m s : ℚ)
    (h1 : hist ≠ [])
    (h2 : calculate_macro_score md = .ok m)
    (h3 : calculate_sentiment_score sd = .ok s)
    (h4 : 0 < claimBase (hist.map Prod.snd)) :
    predict_price hist md sd = .ok (claimForecast (hist.map Prod.snd) m s) := by
  have he : hist.isEmpty = false := by
    cases hist with
    | nil => exact absurd rfl h1
    | cons a t => rfl
  have hp : hist.map Prod.snd ≠ [] := by
    cases hist with
    | nil => exact absurd rfl h1
    | cons a t => simp
  have hrlen : 0 < (lastN 30 (hist.map Prod.snd)).length :=
    List.length_pos.mpr (lastN_ne_nil _ hp)
  have hW : 0 < (linspace 0.5 1.5 (lastN 30 (hist.map Prod.snd)).length).sum :=
    linspace_sum_pos _ hrlen
  have hbase :
      npAverage (lastN 30 (hist.map Prod.snd))
        ((linspace 0.5 1.5 (lastN 30 (hist.map Prod.snd)).length).map
          (fun x => x / (linspace 0.5 1.5 (lastN 30 (hist.map Prod.snd)).length).sum))
        = claimBase (hist.map Prod.snd) := by
    unfold npAverage claimBase
    rw [sum_map_div, div_self (ne_of_gt hW), div_one]
  simp only [predict_price, he, Bool.false_eq_true, if_false]
  rw [hbase, if_neg (not_le.mpr h4), h2, h3]
  rfl

/-- C6 witness: the amended theorem applied to the three-observation series
priced [10, 20, 30] with absent (neutral) macro and sentiment data: the
normalized weights are [1/6, 2/6, 3/6] and the prediction is
10/6 + 40/6 + 90/6 = 70/3 = 23.333... . -/
theorem claim6_witness :
    predict_price [(1, 10), (2, 20), (3, 30)] .pynone .pynone
      = .ok (claimForecast [10, 20, 30] 0 0) ∧
    claimForecast [10, 20, 30] 0 0 = 70/3 := by
  have hl : linspace 0.5 1.5 3 = [0.5, 1, 1.5] := by
    simp [linspace, List.range_succ]
    norm_num
  have hb : claimBase [10, 20, 30] = 70/3 := by
    simp [claimBase, lastN, hl]
    norm_num
  constructor
  · have h := claim6_amended [(1, 10), (2, 20), (3, 30)] .pynone .pynone 0 0
      (List.cons_ne_nil _ _) (by decide) (by decide)
      (by rw [show ([(1, 10), (2, 20), (3, 30)] : List (ℚ × ℚ)).map Prod.snd
          = [10, 20, 30] from rfl, hb]; norm_num)
    simpa using h
  · simp [claimForecast, hb]

/-- Helper: the `except (ValueError, KeyError)` handler of the sentiment
scorer maps any caught failure of its body to the neutral score 0. -/
theorem sentiment_catch_ok (sd : PyVal) (e : PyExc)
    (hbody : calculate_sentiment_score_body sd = .error e)
    (hc : e = .valueError ∨ e = .keyError) :
    calculate_sentiment_score sd = .ok 0 := by
  unfold calculate_sentiment_score
  rw [hbody]
  rcases hc with h | h <;> subst h <;> rfl

/-- C1: the claim says an exception inside any single factor scorer is
isolated to that factor, scored 0, and the pipeline continues to
aggregation and response assembly.  It is false: a `TypeError` raised while
the macro scorer computes `float(None)` is not among the classes its
`except (IndexError, ValueError, KeyError)` handler catches, escapes to the
handler around the scores dict, and the whole request is answered with the
500 response — aggregation and response assembly never run. -/
theorem claim1_counterexample :
    score_token_core DEFAULT_WEIGHTS
        (.pydict [("cpi", .pylist [.pydict [("value", .pynone)]])]) .pynone
        none none ⟨0, 0, 0, 0, 0, 0, 0, 0, 0, 0, 0⟩ true .timeout
      = .error (500, "Error calculating scores") := by
  have htot : totalWeight DEFAULT_WEIGHTS ≠ 0 := by
    norm_num [totalWeight, DEFAULT_WEIGHTS]
  have hcs : computeScores
      (.pydict [("cpi", .pylist [.pydict [("value", .pynone)]])]) .pynone
      none none ⟨0, 0, 0, 0, 0, 0, 0, 0, 0, 0, 0⟩ = .error .typeError := by
    decide
  unfold score_token_core weightsStage
  rw [if_neg htot, hcs]

/-- C1 amended: an exception inside a scorer is isolated (the factor scores
0) exactly when its class is among those the scorer's handler catches —
IndexError/ValueError/KeyError for the macro scorer, ValueError/KeyError
for the sentiment scorer (the placeholder and regulatory scorers catch
everything and are total); whenever the macro and sentiment scorers return,
the pipeline continues through aggregation to response assembly with every
factor scored. -/
theorem claim1_amended :
    (∀ (md : PyVal) (e : PyExc), calculate_macro_score_body md = .error e →
      e = .indexError ∨ e = .valueError ∨ e = .keyError →
      calculate_macro_score md = .ok 0) ∧
    (∀ (sd : PyVal) (e : PyExc), calculate_sentiment_score_body sd = .error e →
      e = .valueError ∨ e = .keyError →
      calculate_sentiment_score sd = .ok 0) ∧
    (∀ (w : List (String × ℚ)) (md sd : PyVal) rd nd (st : StubScores)
        (se : Bool) (o : TaskOutcome) (m s : ℚ),
      totalWeight w ≠ 0 →
      calculate_macro_score md = .ok m →
      calculate_sentiment_score sd = .ok s →
      ∃ resp : ScoreResponse,
        score_token_core w md sd rd nd st se o = .ok resp ∧
        resp.factor_scores
          = [("macro", m), ("sentiment", s),
             ("crypto_specific", st.crypto_specific),
             ("on_chain_tech", st.on_chain_tech),
             ("correlations_geopolitics", st.correlations_geopolitics),
             ("ai", st.ai),
             ("regulatory", calculate_regulatory_score rd nd),
             ("esg_whales", st.esg_whales),
             ("depin_gaming_privacy", st.depin_gaming_privacy),
             ("quantum", st.quantum),
             ("cbdc", st.cbdc),
             ("restaking_defi", st.restaking_defi),
             ("creator_social", st.creator_social),
             ("cross_chain", st.cross_chain)]) := by
  refine ⟨macro_catch_ok, sentiment_catch_ok, ?_⟩
  intro w md sd rd nd st se o m s hw hm hs
  unfold score_token_core weightsStage computeScores
  rw [if_neg hw, hm, hs]
  exact ⟨_, rfl, rfl⟩

/-- C1 witness: the amended theorem applied at a macro body failing with a
caught `KeyError`, a sentiment body failing with a caught `ValueError`
(an unparsable fear-greed string), and a full pipeline run with neutral
inputs and the default weights. -/
theorem claim1_witness :
    calculate_macro_score (.pydict [("cpi", .pydict [("a", .pynone)])]) = .ok 0 ∧
    calculate_sentiment_score
        (.pydict [("fearGreed", .pydict [("value", .pystr "abc")])]) = .ok 0 ∧
    ∃ resp : ScoreResponse,
      score_token_core DEFAULT_WEIGHTS .pynone .pynone none none
          ⟨1, 1, 1, 1, 1, 1, 1, 1, 1, 1, 1⟩ true .timeout = .ok resp ∧
      resp.factor_scores
        = [("macro", 0), ("sentiment", 0), ("crypto_specific", 1),
           ("on_chain_tech", 1), ("correlations_geopolitics", 1), ("ai", 1),
           ("regulatory", calculate_regulatory_score none none),
           ("esg_whales", 1), ("depin_gaming_privacy", 1), ("quantum", 1),
           ("cbdc", 1), ("restaking_defi", 1), ("creator_social", 1),
           ("cross_chain", 1)] :=
  ⟨claim1_amended.1 _ .keyError (by decide) (Or.inr (Or.inr rfl)),
   claim1_amended.2.1 _ .valueError (by decide) (Or.inl rfl),
   claim1_amended.2.2 DEFAULT_WEIGHTS .pynone .pynone none none
     ⟨1, 1, 1, 1, 1, 1, 1, 1, 1, 1, 1⟩ true .timeout 0 0
     (by norm_num [totalWeight, DEFAULT_WEIGHTS]) (by decide) (by decide)⟩

/-- Helper: a present news list is looped over exactly as given (a `None`
or empty list contributes nothing, and an empty list is its own loop). -/
theorem newsArticles_some (l : List Article) : newsArticles (some l) = l := by
  cases l with
  | nil => rfl
  | cons a t => rfl

/-- Helper: the fully empty article still scores, with score 0. -/
theorem articleScore?_empty : articleScore? ⟨"", ""⟩ = some 0 := by
  have h1 : keywordHits POSITIVE_KEYWORDS (pyLower (articleText ⟨"", ""⟩)) = 0 := by
    decide
  have h2 : keywordHits NEGATIVE_KEYWORDS (pyLower (articleText ⟨"", ""⟩)) = 0 := by
    decide
  have hne : articleText (⟨"", ""⟩ : Article) ≠ "" := by decide
  simp [articleScore?, hne, h1, h2]

/-- Helper: the space concatenated between title and description keeps every
article text non-empty. -/
theorem articleText_ne_empty (a : Article) : articleText a ≠ "" := by
  intro he
  have hlen := congrArg String.length he
  simp [articleText, String.length_append] at hlen
  exact absurd hlen.1.2 (by decide)

/-- Helper: every news article is scored. -/
theorem articleScore?_isSome (a : Article) : (articleScore? a).isSome = true := by
  unfold articleScore?
  rw [if_neg (articleText_ne_empty a)]
  rfl

/-- Helper: when both corpus halves are falsy, no document is counted. -/
theorem regScoredCount_falsy (rd : Option (List (String × List Filing)))
    (nd : Option (List Article)) (h1 : optListTruthy rd = false)
    (h2 : optListTruthy nd = false) : regScoredCount rd nd = 0 := by
  unfold regScoredCount regFilings newsArticles
  rw [h1, h2]
  rfl

/-- Helper: a zero document count forces a zero accumulated total. -/
theorem regScoredTotal_zero_of_count_zero (rd : Option (List (String × List Filing)))
    (nd : Option (List Article)) (h : regScoredCount rd nd = 0) :
    regScoredTotal rd nd = 0 := by
  unfold regScoredCount at h
  have h1 : (regFilings rd).filterMap filingScore? = [] :=
    List.length_eq_zero.mp (by omega)
  have h2 : (newsArticles nd).filterMap articleScore? = [] :=
    List.length_eq_zero.mp (by omega)
  unfold regScoredTotal
  rw [h1, h2]
  simp

/-- Helper: averaging the same total over one more document moves the
scaled average toward zero. -/
theorem reg_core_ineq (T : ℚ) (c : ℕ) (hc : 0 < c) :
    |T / ((c : ℚ) + 1) * 2| ≤ |T / (c : ℚ) * 2| := by
  rw [abs_mul, abs_mul, abs_div, abs_div]
  have hc0 : (0 : ℚ) < (c : ℚ) := by exact_mod_cast hc
  apply mul_le_mul_of_nonneg_right _ (by norm_num : (0 : ℚ) ≤ |2|)
  rw [abs_of_pos (by linarith : (0 : ℚ) < (c : ℚ) + 1), abs_of_pos hc0]
  rw [div_eq_mul_inv, div_eq_mul_inv]
  exact mul_le_mul_of_nonneg_left (inv_anti₀ hc0 (by linarith)) (abs_nonneg T)

/-- Helper: appending the empty article to the news list adds one scored
document. -/
theorem regScoredCount_append_empty (rd : Option (List (String × List Filing)))
    (articles : List Article) :
    regScoredCount rd (some (articles ++ [⟨"", ""⟩]))
      = regScoredCount rd (some articles) + 1 := by
  unfold regScoredCount
  rw [newsArticles_some, newsArticles_some, List.filterMap_append]
  simp [articleScore?_empty]
  omega

/-- Helper: appending the empty article leaves the accumulated total
unchanged (its score is 0). -/
theorem regScoredTotal_append_empty (rd : Option (List (String × List Filing)))
    (articles : List Article) :
    regScoredTotal rd (some (articles ++ [⟨"", ""⟩]))
      = regScoredTotal rd (some articles) := by
  unfold regScoredTotal
  rw [newsArticles_some, newsArticles_some, List.filterMap_append]
  simp [articleScore?_empty]

/-- C10: a filing whose description is missing or empty is skipped entirely
(it contributes to neither the total nor the count), while every news
article is always scored because the space concatenated between title and
description keeps the text non-empty; the fully empty article scores 0,
increments the count by one, and pulls the averaged regulatory score toward
0. -/
theorem claim10_regulatory_counting :
    (∀ form : String, filingScore? ⟨"", form⟩ = none) ∧
    (∀ (c : String) (pre post : List Filing) (f : Filing)
        (rest : List (String × List Filing)) (nd : Option (List Article)),
      f.description = "" →
      calculate_regulatory_score (some ((c, pre ++ f :: post) :: rest)) nd
        = calculate_regulatory_score (some ((c, pre ++ post) :: rest)) nd) ∧
    (∀ a : Article, (articleScore? a).isSome = true) ∧
    articleScore? ⟨"", ""⟩ = some 0 ∧
    (∀ (rd : Option (List (String × List Filing))) (articles : List Article),
      regScoredCount rd (some (articles ++ [⟨"", ""⟩]))
        = regScoredCount rd (some articles) + 1 ∧
      |calculate_regulatory_score rd (some (articles ++ [⟨"", ""⟩]))|
        ≤ |calculate_regulatory_score rd (some articles)|) := by
  refine ⟨fun form => rfl, ?_, articleScore?_isSome, articleScore?_empty, ?_⟩
  · intro c pre post f rest nd hdesc
    have hf : filingScore? f = none := by simp [filingScore?, hdesc]
    unfold calculate_regulatory_score regScoredCount regScoredTotal regFilings
    simp [optListTruthy, List.filterMap_append, hf]
  · intro rd articles
    refine ⟨regScoredCount_append_empty rd articles, ?_⟩
    have hLnews : optListTruthy (some (articles ++ [(⟨"", ""⟩ : Article)])) = true := by
      cases articles <;> rfl
    unfold calculate_regulatory_score
    rw [regScoredCount_append_empty, regScoredTotal_append_empty, hLnews]
    simp only [Bool.not_true, Bool.and_false, Bool.false_eq_true, if_false]
    rw [if_pos (Nat.succ_pos _)]
    by_cases hc : 0 < regScoredCount rd (some articles)
    · have hcond : (!optListTruthy rd && !optListTruthy (some articles)) = false := by
        cases b1 : optListTruthy rd with
        | true => rfl
        | false =>
          cases b2 : optListTruthy (some articles) with
          | true => rfl
          | false =>
            exfalso
            rw [regScoredCount_falsy rd (some articles) b1 b2] at hc
            exact Nat.lt_irrefl 0 hc
      rw [hcond]
      simp only [Bool.false_eq_true, if_false]
      rw [if_pos hc]
      have hmain := reg_core_ineq (regScoredTotal rd (some articles))
        (regScoredCount rd (some articles)) hc
      push_cast
      push_cast at hmain
      exact hmain
    · have hc0 : regScoredCount rd (some articles) = 0 := by omega
      have hT : regScoredTotal rd (some articles) = 0 :=
        regScoredTotal_zero_of_count_zero _ _ hc0
      rw [hc0, hT]
      simp

/-- C10 witness: the counting theorem applied at a concrete corpus — an
empty-description "10-K" filing is dropped from the corpus without changing
the score, and a concrete article is scored. -/
theorem claim10_witness :
    calculate_regulatory_score (some [("A", [⟨"", "10-K"⟩])]) none
      = calculate_regulatory_score (some [("A", [])]) none ∧
    (articleScore? ⟨"News", "crypto"⟩).isSome = true :=
  ⟨claim10_regulatory_counting.2.1 "A" [] [] ⟨"", "10-K"⟩ [] none rfl,
   claim10_regulatory_counting.2.2.1 ⟨"News", "crypto"⟩⟩

end CryptoAnalyzer
